import Mathlib

/-!
# Verification of the JOS TSC / timer subsystem (`kern/tsc.c`)

A shallow embedding of the timer-calibration and elapsed-time-session code in
`kern/tsc.c`.  Hardware is modelled as an oracle (`Env`): a stream of byte
values returned by successive reads of the PIT channel-2 data port, and a
stream of values returned by successive `read_tsc()` invocations.  Port writes
(`outb`) configure hardware and return nothing, so they do not appear in the
model; the read-modify-write of port 0x61 in `quick_pit_calibrate` only feeds
such a write and is likewise dropped.  Machine integers are `Nat` with
explicit reduction modulo `2 ^ 64` (for `uint64_t` / `unsigned long`) and
modulo `256` (for `unsigned char`); the one signed operation in the source,
`(long)(d2 - d1) / 2`, is modelled on `Int` with truncating division.
-/

/-- Modulus of 64-bit unsigned arithmetic (`uint64_t`, `unsigned long`). -/
def U64 : Nat := 2 ^ 64

/-- `#define PIT_TICK_RATE 1193182ul` — clock frequency of the i8253/i8254 PIT. -/
def PIT_TICK_RATE : Nat := 1193182

/-- `#define DEFAULT_FREQ 2500000` — fallback frequency (kHz) when calibration fails. -/
def DEFAULT_FREQ : Nat := 2500000

/-- `#define TIMES 100` — retry bound used by `tsc_calibrate`. -/
def TIMES : Nat := 100

/-- `#define MAX_QUICK_PIT_MS 25` — wall-clock budget for quick calibration. -/
def MAX_QUICK_PIT_MS : Nat := 25

/-- `#define MAX_QUICK_PIT_ITERATIONS (MAX_QUICK_PIT_MS * PIT_TICK_RATE / 1000 / 256)` -/
def MAX_QUICK_PIT_ITERATIONS : Nat := MAX_QUICK_PIT_MS * PIT_TICK_RATE / 1000 / 256

/-- The hardware oracle: `pitRead n` is the byte delivered by the `n`-th
`inb(PIT_IO_CHANNEL_2)`, `tscRead n` the value delivered by the `n`-th
`read_tsc()` during one run of `quick_pit_calibrate`. -/
structure Env where
  pitRead : Nat → Nat
  tscRead : Nat → Nat

/-- Hardware read cursor: next PIT-port read index, next TSC read index. -/
abbrev HwState := Nat × Nat

/-- `pit_verify_msb(val)`: two ordered reads of the channel-2 data port
(LSB discarded, MSB compared against `val`). -/
def pit_verify_msb (e : Env) (val : Nat) (s : HwState) : Bool × HwState :=
  (decide (e.pitRead (s.1 + 1) % 256 = val), (s.1 + 2, s.2))

/-- The polling loop of `pit_expect_msb`:
`int count = 0; while (count++ < 50000) { if (!pit_verify_msb(val)) break; tsc = read_tsc(); }`.
`fuel` is the number of loop entries still permitted (initially 50000);
returns the final `count`, the final `tsc` accumulator, and the read cursor. -/
def expectLoop (e : Env) (val : Nat) : Nat → Nat → Nat → HwState → Nat × Nat × HwState
  | 0, count, tsc, s => (count + 1, tsc, s)
  | fuel + 1, count, tsc, s =>
      match pit_verify_msb e val s with
      | (ok, s1) =>
          if ok then
            expectLoop e val fuel (count + 1) (e.tscRead s1.2 % U64) (s1.1, s1.2 + 1)
          else (count + 1, tsc, s1)

/-- `pit_expect_msb(val, &tscp, &deltap)`: poll while the MSB matches,
then record `*tscp = tsc`, `*deltap = read_tsc() - tsc`, and succeed
iff `count > 6`. -/
def pit_expect_msb (e : Env) (val : Nat) (s : HwState) : Bool × Nat × Nat × HwState :=
  match expectLoop e val 50000 0 0 s with
  | (count, tsc, (p, t)) =>
      let now := e.tscRead t % U64
      (decide (6 < count), tsc, (now + U64 - tsc) % U64, (p, t + 1))

/-- Number of consecutive matching MSB observations the polling loop sees
from cursor `(p, t)` (capped by `fuel`); a specification-side counter used to
characterise `pit_expect_msb`. -/
def confirmLoop (e : Env) (val : Nat) : Nat → Nat → Nat → Nat
  | 0, _, _ => 0
  | fuel + 1, p, t =>
      if e.pitRead (p + 1) % 256 = val then confirmLoop e val fuel (p + 2) (t + 1) + 1
      else 0

/-- The arithmetic of the `success:` block of `quick_pit_calibrate`:
`delta += (long)(d2 - d1) / 2; delta *= PIT_TICK_RATE; delta /= i * 256 * 1000;`
in 64-bit arithmetic, with the signed cast and truncating signed division. -/
def quick_success_value (i delta d1 d2 : Nat) : Nat :=
  let diff := (d2 + U64 - d1) % U64
  let adj : Int := Int.tdiv (if diff < 2 ^ 63 then (diff : Int) else (diff : Int) - (U64 : Int)) 2
  let delta1 : Nat := (((delta : Int) + adj) % ((U64 : Int))).toNat
  delta1 * PIT_TICK_RATE % U64 / (i * 256 * 1000)

/-- The `for (i = 1; i <= MAX_QUICK_PIT_ITERATIONS; i++)` loop of
`quick_pit_calibrate`.  `tsc` and `d1` are the baseline sample; `fuel` is the
number of loop iterations still permitted.  Returns the data flowing into the
`success:` block, or `none` when the function returns 0. -/
def qpcLoop (e : Env) (tsc d1 : Nat) : Nat → Nat → HwState → Option (Nat × Nat × Nat × Nat)
  | 0, _, _ => none
  | fuel + 1, i, s =>
      match pit_expect_msb e (0xFF - i) s with
      | (ok, anchor, d2, s1) =>
          if ok then
            let delta := (anchor + U64 - tsc) % U64
            if (d1 + d2) % U64 < delta >>> 11 then
              match pit_verify_msb e (0xFE - i) s1 with
              | (ok2, _) => if ok2 then some (i, delta, d1, d2) else none
            else qpcLoop e tsc d1 fuel (i + 1) s1
          else none

/-- Everything `quick_pit_calibrate` does before the `success:` block:
the alignment read, the baseline sample at MSB `0xFF`, and the main loop.
`some (i, delta, d1, d2)` means control reaches `success:` with those values. -/
def qpcRun (e : Env) : Option (Nat × Nat × Nat × Nat) :=
  match pit_verify_msb e 0 (0, 0) with
  | (_, s1) =>
      match pit_expect_msb e 0xFF s1 with
      | (ok, tsc, d1, s2) =>
          if ok then qpcLoop e tsc d1 MAX_QUICK_PIT_ITERATIONS 1 s2 else none

/-- `quick_pit_calibrate()`: 0 on failure, otherwise the `success:` block's
frequency (kHz) computation. -/
def quick_pit_calibrate (e : Env) : Nat :=
  match qpcRun e with
  | some (i, delta, d1, d2) => quick_success_value i delta d1 d2
  | none => 0

/-- `enum Timer_id` from `kern/tsc.c`. -/
inductive Timer_id where
  | ID_NONE
  | ID_HPET0
  | ID_HPET1
  | ID_PIT
  | ID_PM
deriving DecidableEq, Repr

/-- One line written to the console collaborator (`cprintf` / `print_time` /
`print_timer_error`); the exact formatting is abstracted to the event's
identity and payload. -/
inductive ConsoleEvent where
  /-- `print_time(seconds)`: the elapsed-seconds report of `timer_stop`. -/
  | time (seconds : Nat)
  /-- `print_timer_error()`: `"Timer Error"`. -/
  | timerError
  /-- `"timer_start: unsupported timer %s"`. -/
  | unsupportedStart (name : String)
  /-- `"timer_cpu_frequency: unsupported timer %s"`. -/
  | unsupportedFreq (name : String)
  /-- the `"%ld"` frequency report of `timer_cpu_frequency`. -/
  | freqReport (value : Nat)
  /-- `"Can't calibrate pit timer. Using default frequency"`. -/
  | calibNotice
deriving DecidableEq, Repr

/-- Environment of a whole run of the subsystem.  `calibEnvs n` is the
hardware trace consumed by the `n`-th invocation of `quick_pit_calibrate`;
`tscStream n` the value of the `n`-th `read_tsc()` made directly by
`timer_start` / `timer_stop`.

`hpet0Freq`, `hpet1Freq`, `pmFreq` are modelled from the spec: the
implementations of `timer_hpet0.get_cpu_freq`, `timer_hpet1.get_cpu_freq` and
`timer_acpipm.get_cpu_freq` (declared in `kern/timer.h`) are not part of the
provided sources; the spec gives only their contract
`frequency() -> CalibratedFrequency` with `CalibratedFrequency` "a positive
integer, cycles-per-second", so they are oracles here, with positivity stated
as the separate hypothesis `SysEnv.WF` where a claim needs it. -/
structure SysEnv where
  calibEnvs : Nat → Env
  tscStream : Nat → Nat
  hpet0Freq : Nat
  hpet1Freq : Nat
  pmFreq : Nat

/-- Modelled from the spec: the external timer collaborators return a positive
`CalibratedFrequency` (64-bit). -/
def SysEnv.WF (env : SysEnv) : Prop :=
  0 < env.hpet0Freq ∧ env.hpet0Freq < U64 ∧
  0 < env.hpet1Freq ∧ env.hpet1Freq < U64 ∧
  0 < env.pmFreq ∧ env.pmFreq < U64

/-- The complete mutable state of `kern/tsc.c`: the elapsed-time session
(`timer_started`, `timer_id`, `timer`), the calibration cache (`cpu_freq`,
the `static uint64_t` local of `tsc_calibrate`), the instrumentation counters
(`calibCalls` counts invocations of `quick_pit_calibrate`, `tscIdx` is the
session's `read_tsc` cursor), the console output log, and `div_by_zero`,
which records whether `timer_stop` ever executed its division with a zero
divisor (undefined behaviour / #DE fault in the C program). -/
structure SysState where
  timer_started : Bool
  timer_id : Timer_id
  timer : Nat
  cpu_freq : Nat
  calibCalls : Nat
  tscIdx : Nat
  out : List ConsoleEvent
  div_by_zero : Bool
deriving DecidableEq, Repr

/-- The initial state: `timer_started = 0`, `timer_id = ID_NONE`, `timer = 0`,
`cpu_freq = 0` (uninitialised static). -/
def initState : SysState :=
  ⟨false, Timer_id.ID_NONE, 0, 0, 0, 0, [], false⟩

/-- The retry loop of `tsc_calibrate`:
`int i = TIMES; while (--i > 0) { if ((cpu_freq = quick_pit_calibrate())) break; }`.
`calls` is the global count of `quick_pit_calibrate` invocations so far
(indexing `env.calibEnvs`); the argument after it is the C variable `i`
before the decrement.  Returns the final `i`, the final `cpu_freq`
(0 unless the loop broke), and the updated call count. -/
def calibLoop (env : SysEnv) : Nat → Nat → Nat × Nat × Nat
  | calls, 0 => (0, 0, calls)
  | calls, i + 1 =>
      if 0 < i then
        let r := quick_pit_calibrate (env.calibEnvs calls)
        if r ≠ 0 then (i, r, calls + 1) else calibLoop env (calls + 1) i
      else (0, 0, calls)

/-- `tsc_calibrate()`: memoised quick PIT calibration with up to `TIMES`
retries and a default fallback; returns `cpu_freq * 1000` (cycles/second). -/
def tsc_calibrate (env : SysEnv) (s : SysState) : Nat × SysState :=
  if s.cpu_freq ≠ 0 then (s.cpu_freq * 1000 % U64, s)
  else
    match calibLoop env s.calibCalls TIMES with
    | (i, freq, calls1) =>
        if i = 0 then
          (DEFAULT_FREQ * 1000 % U64,
           { s with cpu_freq := DEFAULT_FREQ, calibCalls := calls1,
                    out := s.out ++ [ConsoleEvent.calibNotice] })
        else
          (freq * 1000 % U64, { s with cpu_freq := freq, calibCalls := calls1 })

/-- `get_cpu_freq_by_id(t_id)`: dispatch to the selected timer source.
The PIT case is `timer_pit.get_cpu_freq = tsc_calibrate`; the HPET and ACPI-PM
cases delegate to the external collaborators; the default case returns 0. -/
def get_cpu_freq_by_id (env : SysEnv) (s : SysState) : Timer_id → Nat × SysState
  | Timer_id.ID_HPET0 => (env.hpet0Freq % U64, s)
  | Timer_id.ID_HPET1 => (env.hpet1Freq % U64, s)
  | Timer_id.ID_PIT => tsc_calibrate env s
  | Timer_id.ID_PM => (env.pmFreq % U64, s)
  | Timer_id.ID_NONE => (0, s)

/-- `get_timer_id(name)`: case-sensitive exact name lookup; `"pm"` is
recognised but deliberately unimplemented (`return ID_NONE; // TODO`). -/
def get_timer_id (name : String) : Timer_id :=
  if name = "hpet0" then Timer_id.ID_HPET0
  else if name = "hpet1" then Timer_id.ID_HPET1
  else if name = "pit" then Timer_id.ID_PIT
  else if name = "pm" then Timer_id.ID_NONE
  else Timer_id.ID_NONE

/-- `timer_start(name)`: assigns the global `timer_id` from the lookup
(before validating it, exactly as the source does), then either reports an
unsupported timer or records the start snapshot. -/
def timer_start (env : SysEnv) (name : String) (s : SysState) : SysState :=
  let s1 := { s with timer_id := get_timer_id name }
  if s1.timer_id = Timer_id.ID_NONE then
    { s1 with out := s1.out ++ [ConsoleEvent.unsupportedStart name] }
  else
    { s1 with timer_started := true,
              timer := env.tscStream s1.tscIdx % U64, tscIdx := s1.tscIdx + 1 }

/-- `timer_stop()`: misuse check, elapsed-seconds computation
`(read_tsc() - timer) / get_cpu_freq_by_id(timer_id)`, report, and reset.
`div_by_zero` is set when the division's divisor is 0 (C undefined
behaviour; the quotient is modelled as Lean's `x / 0 = 0` in that case). -/
def timer_stop (env : SysEnv) (s : SysState) : SysState :=
  if s.timer_started then
    let now := env.tscStream s.tscIdx % U64
    let ticks := (now + U64 - s.timer) % U64
    match get_cpu_freq_by_id env { s with tscIdx := s.tscIdx + 1 } s.timer_id with
    | (freq, s1) =>
        { s1 with out := s1.out ++ [ConsoleEvent.time (ticks / freq)],
                  div_by_zero := s1.div_by_zero || decide (freq = 0),
                  timer_started := false, timer_id := Timer_id.ID_NONE }
  else { s with out := s.out ++ [ConsoleEvent.timerError] }

/-- `timer_cpu_frequency(name)`: stateless (session-wise) frequency query by
name; uses a local id, never the session's `timer_id`. -/
def timer_cpu_frequency (env : SysEnv) (name : String) (s : SysState) : SysState :=
  let id := get_timer_id name
  if id = Timer_id.ID_NONE then
    { s with out := s.out ++ [ConsoleEvent.unsupportedFreq name] }
  else
    match get_cpu_freq_by_id env s id with
    | (freq, s1) => { s1 with out := s1.out ++ [ConsoleEvent.freqReport freq] }

/-- The subsystem's public entry points. -/
inductive Cmd where
  | start (name : String)
  | stop
  | cpuFrequency (name : String)
deriving DecidableEq, Repr

/-- One call to an entry point. -/
def step (env : SysEnv) (s : SysState) : Cmd → SysState
  | Cmd.start name => timer_start env name s
  | Cmd.stop => timer_stop env s
  | Cmd.cpuFrequency name => timer_cpu_frequency env name s

/-- A run of the subsystem: a sequence of entry-point calls from the initial
state. -/
def run (env : SysEnv) (cmds : List Cmd) : SysState :=
  cmds.foldl (step env) initState

/-!
## Concrete hardware traces

Explicit environments used to evaluate the model on concrete inputs.
-/

/-- A hardware trace on which every port read and TSC read returns 0; the very
first MSB check of `quick_pit_calibrate`'s baseline sample fails on it, so
every calibration attempt returns 0. -/
def zeroEnv : Env := ⟨fun _ => 0, fun _ => 0⟩

/-- A system environment whose calibration attempts all fail (`zeroEnv`
traces) and whose external timer collaborators all report frequency 1. -/
def allFailSys : SysEnv := ⟨fun _ => zeroEnv, fun _ => 0, 1, 1, 1⟩

/-- A trace on which the MSB value `0xFF` is observed exactly 6 consecutive
times (PIT reads deliver the MSB at odd indices) and the 7th poll mismatches. -/
def envSixConfirms : Env :=
  ⟨fun n => if n % 2 = 1 ∧ 1 ≤ n ∧ n ≤ 11 then 0xFF else 0, fun _ => 0⟩

/-- PIT byte stream of a run of `quick_pit_calibrate` that reaches the
`success:` block at `i = 1`: after the alignment read (indices 0–1), six
confirmations of MSB `0xFF` (odd indices 3–13) then a mismatch, six
confirmations of MSB `0xFE` (odd indices 17–27) then a mismatch, and the final
independent check of MSB `0xFD` at index 31. -/
def succPit : Nat → Nat := fun n =>
  if n % 2 = 1 ∧ 3 ≤ n ∧ n ≤ 13 then 0xFF
  else if n % 2 = 1 ∧ 17 ≤ n ∧ n ≤ 27 then 0xFE
  else if n = 31 then 0xFD
  else 0

/-- A trace reaching `success:` with `i = 1`, `d1 = d2 = 0` and
`delta = 2 ^ 63`: the TSC jumps from 0 to `2 ^ 63` between the baseline
sample and the `i = 1` sample, so `delta * PIT_TICK_RATE` is a multiple of
`2 ^ 64` and the computed frequency is 0. -/
def envOverflow : Env := ⟨succPit, fun n => if n ≤ 6 then 0 else 2 ^ 63⟩

/-- A trace reaching `success:` with `i = 1`, `d1 = d2 = 0` and
`delta = 4096`: a genuine successful calibration. -/
def envCalibOk : Env := ⟨succPit, fun n => if n ≤ 6 then 0 else 4096⟩

/-- A system environment whose very first calibration attempt succeeds. -/
def okSys : SysEnv := ⟨fun _ => envCalibOk, fun _ => 0, 1, 1, 1⟩

/-!
## Characterisation of the polling loop
-/

/-- The polling loop of `pit_expect_msb`, in closed form: with `c` the number
of consecutive matching MSB observations (capped by `fuel`), the final `count`
is `count + c + 1`, the anchor is the TSC read taken right after the last
matching observation (or the accumulator if there was none), `c + 1` polls are
made (`c` when the ceiling cuts the loop), and one TSC read per match. -/
theorem expectLoop_eq (e : Env) (val : Nat) :
    ∀ fuel count tsc p t,
      expectLoop e val fuel count tsc (p, t) =
        (count + confirmLoop e val fuel p t + 1,
         (if confirmLoop e val fuel p t = 0 then tsc
          else e.tscRead (t + (confirmLoop e val fuel p t - 1)) % U64),
         (p + 2 * min (confirmLoop e val fuel p t + 1) fuel,
          t + confirmLoop e val fuel p t)) := by
  intro fuel
  induction fuel with
  | zero =>
      intro count tsc p t
      simp [expectLoop, confirmLoop]
  | succ fuel ih =>
      intro count tsc p t
      by_cases h : e.pitRead (p + 1) % 256 = val
      · have hv : pit_verify_msb e val (p, t) = (true, (p + 2, t)) := by
          simp [pit_verify_msb, h]
        have hc : confirmLoop e val (fuel + 1) p t =
            confirmLoop e val fuel (p + 2) (t + 1) + 1 := by
          simp [confirmLoop, h]
        rw [show expectLoop e val (fuel + 1) count tsc (p, t) =
              (match pit_verify_msb e val (p, t) with
               | (ok, s1) =>
                   if ok then
                     expectLoop e val fuel (count + 1) (e.tscRead s1.2 % U64) (s1.1, s1.2 + 1)
                   else (count + 1, tsc, s1)) from rfl,
            hv]
        simp only [ih, hc, eq_self_iff_true, if_true, Prod.mk.injEq]
        refine ⟨by omega, ?_, ?_, by omega⟩
        · by_cases h0 : confirmLoop e val fuel (p + 2) (t + 1) = 0 <;>
            simp only [h0, if_true, if_false, Nat.add_one_ne_zero, ite_false]
          · simp
          · congr 2
            omega
        · rw [show min (confirmLoop e val fuel (p + 2) (t + 1) + 1 + 1) (fuel + 1) =
                min (confirmLoop e val fuel (p + 2) (t + 1) + 1) fuel + 1 from
              Nat.succ_min_succ _ _]
          omega
      · have hv : pit_verify_msb e val (p, t) = (false, (p + 2, t)) := by
          simp [pit_verify_msb, h]
        have hc : confirmLoop e val (fuel + 1) p t = 0 := by
          simp [confirmLoop, h]
        rw [show expectLoop e val (fuel + 1) count tsc (p, t) =
              (match pit_verify_msb e val (p, t) with
               | (ok, s1) =>
                   if ok then
                     expectLoop e val fuel (count + 1) (e.tscRead s1.2 % U64) (s1.1, s1.2 + 1)
                   else (count + 1, tsc, s1)) from rfl,
            hv, hc]
        simp

/-- C9 (amended: the sample is accepted after at least 6 — not more than 6 —
consecutive confirmations). `pit_expect_msb` polls `pit_verify_msb` up to the
hard ceiling of 50000 while the expected MSB keeps matching (making
`min (c + 1) 50000` polls when `c` MSB observations match), anchors `*tscp` at
the TSC read taken at the last matching observation (0 if none matched),
records `*deltap = read_tsc() - tsc` as the jitter bound, and succeeds exactly
when the expected value persisted for at least 6 consecutive confirmations;
a failed sample returns `false` to the caller rather than aborting. -/
theorem pit_expect_msb_spec (e : Env) (val p t : Nat) :
    pit_expect_msb e val (p, t) =
      ((decide (6 ≤ confirmLoop e val 50000 p t)),
       (if confirmLoop e val 50000 p t = 0 then 0
        else e.tscRead (t + (confirmLoop e val 50000 p t - 1)) % U64),
       ((e.tscRead (t + confirmLoop e val 50000 p t) % U64 + U64 -
          (if confirmLoop e val 50000 p t = 0 then 0
           else e.tscRead (t + (confirmLoop e val 50000 p t - 1)) % U64)) % U64),
       (p + 2 * min (confirmLoop e val 50000 p t + 1) 50000,
        t + confirmLoop e val 50000 p t + 1)) := by
  simp only [pit_expect_msb, expectLoop_eq, Nat.zero_add, Prod.mk.injEq]
  exact ⟨decide_eq_decide.mpr (by omega), trivial⟩

theorem U64_pos : 0 < U64 := by norm_num [U64]

theorem U64_eq : U64 = 18446744073709551616 := by norm_num [U64]

theorem MAX_QUICK_PIT_ITERATIONS_eq : MAX_QUICK_PIT_ITERATIONS = 116 := by
  norm_num [MAX_QUICK_PIT_ITERATIONS, MAX_QUICK_PIT_MS, PIT_TICK_RATE]

/-- The jitter bound written through `deltap` is a 64-bit value. -/
theorem pit_expect_d_lt (e : Env) (val : Nat) (s : HwState) :
    (pit_expect_msb e val s).2.2.1 < U64 := by
  rcases h : expectLoop e val 50000 0 0 s with ⟨count, tsc, p, t⟩
  simp only [pit_expect_msb, h]
  exact Nat.mod_lt _ U64_pos

/-- Invariant of the main calibration loop: reaching `success:` pins down the
baseline jitter, bounds the iteration index, keeps `delta` and `d2` 64-bit,
and means the 500-ppm quality gate was passed. -/
theorem qpcLoop_some (e : Env) (tsc d1 : Nat) :
    ∀ fuel i s i0 delta d1x d2,
      qpcLoop e tsc d1 fuel i s = some (i0, delta, d1x, d2) →
      d1x = d1 ∧ i ≤ i0 ∧ i0 < i + fuel ∧ delta < U64 ∧ d2 < U64 ∧
        (d1 + d2) % U64 < delta >>> 11 := by
  intro fuel
  induction fuel with
  | zero =>
      intro i s i0 delta d1x d2 h
      simp [qpcLoop] at h
  | succ fuel ih =>
      intro i s i0 delta d1x d2 h
      rcases hpe : pit_expect_msb e (0xFF - i) s with ⟨ok, anchor, d2x, s1⟩
      simp only [qpcLoop] at h
      rw [hpe] at h
      cases ok with
      | false => simp at h
      | true =>
          simp only [if_true] at h
          by_cases hg : (d1 + d2x) % U64 < ((anchor + U64 - tsc) % U64) >>> 11
          · rw [if_pos hg] at h
            rcases hpv : pit_verify_msb e (0xFE - i) s1 with ⟨ok2, s2⟩
            rw [hpv] at h
            cases ok2 with
            | false => simp at h
            | true =>
                simp only [if_true, Option.some.injEq, Prod.mk.injEq] at h
                obtain ⟨hi0, hdelta, hd1, hd2⟩ := h
                subst hi0; subst hdelta; subst hd1; subst hd2
                have hb : d2x < U64 := by
                  have := pit_expect_d_lt e (0xFF - i) s
                  rwa [hpe] at this
                exact ⟨rfl, le_refl _, by omega, Nat.mod_lt _ U64_pos, hb, hg⟩
          · rw [if_neg hg] at h
            obtain ⟨h1, h2, h3, h4, h5, h6⟩ := ih (i + 1) s1 i0 delta d1x d2 h
            exact ⟨h1, by omega, by omega, h4, h5, h6⟩

/-- Reaching the `success:` block of `quick_pit_calibrate`: the iteration
index lies in `[1, MAX_QUICK_PIT_ITERATIONS]`, all sample values are 64-bit,
and the quality gate `d1 + d2 < delta >> 11` held. -/
theorem qpcRun_some (e : Env) (i delta d1 d2 : Nat)
    (h : qpcRun e = some (i, delta, d1, d2)) :
    1 ≤ i ∧ i ≤ MAX_QUICK_PIT_ITERATIONS ∧ delta < U64 ∧ d1 < U64 ∧ d2 < U64 ∧
      (d1 + d2) % U64 < delta >>> 11 := by
  unfold qpcRun at h
  rcases hpv : pit_verify_msb e 0 (0, 0) with ⟨b0, s1⟩
  rw [hpv] at h
  dsimp only at h
  rcases hpe : pit_expect_msb e 0xFF s1 with ⟨ok, tsc, d1b, s2⟩
  rw [hpe] at h
  cases ok with
  | false => simp at h
  | true =>
      simp only [if_true] at h
      obtain ⟨hd1, hi1, hi2, hdelta, hd2, hgate⟩ :=
        qpcLoop_some e tsc d1b MAX_QUICK_PIT_ITERATIONS 1 s2 i delta d1 d2 h
      subst hd1
      have hb : d1 < U64 := by
        have := pit_expect_d_lt e 0xFF s1
        rwa [hpe] at this
      exact ⟨hi1, by omega, hdelta, hb, hd2, hgate⟩

/-- When `d1 ≤ d2`, the signed jitter adjustment adds `(d2 - d1) / 2`. -/
theorem quick_success_value_eq_of_le (i delta d1 d2 : Nat) (h : d1 ≤ d2)
    (hlt : d2 - d1 < 2 ^ 63) (hs : delta + (d2 - d1) / 2 < U64) :
    quick_success_value i delta d1 d2 =
      (delta + (d2 - d1) / 2) * PIT_TICK_RATE % U64 / (i * 256 * 1000) := by
  have hdiff : (d2 + U64 - d1) % U64 = d2 - d1 := by
    rw [show d2 + U64 - d1 = (d2 - d1) + U64 by omega, Nat.add_mod_right]
    exact Nat.mod_eq_of_lt (by have := U64_eq; omega)
  have hadj : Int.tdiv ((d2 - d1 : Nat) : Int) 2 = (((d2 - d1) / 2 : Nat) : Int) := by
    rw [show ((2 : Int)) = ((2 : Nat) : Int) from rfl, ← Int.ofNat_tdiv]
  simp only [quick_success_value, hdiff]
  rw [if_pos hlt, hadj]
  rw [show ((delta : Nat) : Int) + (((d2 - d1) / 2 : Nat) : Int) =
        ((delta + (d2 - d1) / 2 : Nat) : Int) by push_cast; ring]
  rw [Int.emod_eq_of_lt (by positivity) (by exact_mod_cast hs), Int.toNat_ofNat]

/-- When `d2 < d1`, the two's-complement reinterpretation of `d2 - d1` is
negative and the adjustment subtracts `(d1 - d2) / 2`. -/
theorem quick_success_value_eq_of_gt (i delta d1 d2 : Nat) (h : d2 < d1)
    (hk : d1 - d2 ≤ U64 - 2 ^ 63) (hk2 : (d1 - d2) / 2 ≤ delta) (hd : delta < U64) :
    quick_success_value i delta d1 d2 =
      (delta - (d1 - d2) / 2) * PIT_TICK_RATE % U64 / (i * 256 * 1000) := by
  have hU := U64_eq
  have hdiff : (d2 + U64 - d1) % U64 = U64 - (d1 - d2) := by
    rw [show d2 + U64 - d1 = U64 - (d1 - d2) by omega]
    exact Nat.mod_eq_of_lt (by omega)
  have hcond : ¬ (U64 - (d1 - d2) < 2 ^ 63) := by
    have h63 : (2 : Nat) ^ 63 = 9223372036854775808 := by norm_num
    omega
  have hneg : ((U64 - (d1 - d2) : Nat) : Int) - ((U64 : Nat) : Int) =
      -(((d1 - d2 : Nat) : Int)) := by
    push_cast [show d1 - d2 ≤ U64 by omega]
    ring
  have hadj : Int.tdiv (-(((d1 - d2 : Nat) : Int))) 2 =
      -((((d1 - d2) / 2 : Nat) : Int)) := by
    rw [Int.neg_tdiv, show ((2 : Int)) = ((2 : Nat) : Int) from rfl, ← Int.ofNat_tdiv]
  simp only [quick_success_value, hdiff]
  rw [if_neg hcond, hneg, hadj]
  rw [show ((delta : Nat) : Int) + -((((d1 - d2) / 2 : Nat) : Int)) =
        ((delta - (d1 - d2) / 2 : Nat) : Int) by
      push_cast [hk2]; ring]
  rw [Int.emod_eq_of_lt (by positivity)
        (by exact_mod_cast (by omega : delta - (d1 - d2) / 2 < U64)),
      Int.toNat_ofNat]

/-- Positivity of the computed frequency when the quality gate held and the
64-bit arithmetic does not wrap. -/
theorem quick_success_value_pos (i delta d1 d2 : Nat) (hi1 : 1 ≤ i)
    (hi2 : i ≤ MAX_QUICK_PIT_ITERATIONS) (hd : delta < U64)
    (hgate : d1 + d2 < delta >>> 11)
    (hmul : (delta + (d1 + d2)) * PIT_TICK_RATE < U64) :
    0 < quick_success_value i delta d1 d2 := by
  have hU := U64_eq
  have hi116 : i ≤ 116 := by
    have := MAX_QUICK_PIT_ITERATIONS_eq; omega
  have hshift : delta >>> 11 = delta / 2048 := by
    rw [Nat.shiftRight_eq_div_pow]
  rw [hshift] at hgate
  have hrate : PIT_TICK_RATE = 1193182 := rfl
  have hone : 1 ≤ PIT_TICK_RATE := by norm_num [PIT_TICK_RATE]
  have hsumU : delta + (d1 + d2) < U64 := by
    calc delta + (d1 + d2) = (delta + (d1 + d2)) * 1 := by ring
      _ ≤ (delta + (d1 + d2)) * PIT_TICK_RATE := Nat.mul_le_mul (le_refl _) hone
      _ < U64 := hmul
  -- the adjusted delta, in both signed cases
  have main : ∀ D : Nat, 1024 ≤ D → D * PIT_TICK_RATE < U64 →
      0 < D * PIT_TICK_RATE % U64 / (i * 256 * 1000) := by
    intro D hD hDU
    rw [Nat.mod_eq_of_lt hDU]
    apply Nat.div_pos _ (by omega)
    calc i * 256 * 1000 ≤ 116 * 256 * 1000 := by omega
      _ ≤ 1024 * PIT_TICK_RATE := by rw [hrate]; omega
      _ ≤ D * PIT_TICK_RATE := Nat.mul_le_mul hD (le_refl _)
  rcases le_or_lt d1 d2 with hc | hc
  · rw [quick_success_value_eq_of_le i delta d1 d2 hc (by omega) (by omega)]
    exact main _ (by omega) (by
      calc (delta + (d2 - d1) / 2) * PIT_TICK_RATE
            ≤ (delta + (d1 + d2)) * PIT_TICK_RATE := Nat.mul_le_mul (by omega) (le_refl _)
        _ < U64 := hmul)
  · rw [quick_success_value_eq_of_gt i delta d1 d2 hc (by omega) (by omega) hd]
    exact main _ (by omega) (by
      calc (delta - (d1 - d2) / 2) * PIT_TICK_RATE
            ≤ (delta + (d1 + d2)) * PIT_TICK_RATE := Nat.mul_le_mul (by omega) (le_refl _)
        _ < U64 := hmul)

/-- If the retry loop of `tsc_calibrate` broke out (final `i ≠ 0`), the value
it assigned to `cpu_freq` is nonzero. -/
theorem calibLoop_break (env : SysEnv) :
    ∀ i calls j f c, calibLoop env calls i = (j, f, c) → j ≠ 0 → f ≠ 0 := by
  intro i
  induction i with
  | zero =>
      intro calls j f c h hj
      simp only [calibLoop, Prod.mk.injEq] at h
      omega
  | succ i ih =>
      intro calls j f c h hj
      simp only [calibLoop] at h
      by_cases h0 : 0 < i
      · rw [if_pos h0] at h
        by_cases hr : quick_pit_calibrate (env.calibEnvs calls) ≠ 0
        · rw [if_pos hr] at h
          simp only [Prod.mk.injEq] at h
          omega
        · rw [if_neg hr] at h
          exact ih (calls + 1) j f c h hj
      · rw [if_neg h0] at h
        simp only [Prod.mk.injEq] at h
        omega

/-- If every attempt the loop can make fails, it runs `i - 1` attempts and
exits with `i = 0` and `cpu_freq = 0`. -/
theorem calibLoop_all_fail (env : SysEnv) :
    ∀ i calls, 1 ≤ i →
      (∀ n, n < i - 1 → quick_pit_calibrate (env.calibEnvs (calls + n)) = 0) →
      calibLoop env calls i = (0, 0, calls + (i - 1)) := by
  intro i
  induction i with
  | zero => intro calls h1; omega
  | succ i ih =>
      intro calls h1 hfail
      simp only [calibLoop]
      by_cases h0 : 0 < i
      · rw [if_pos h0]
        have hz : quick_pit_calibrate (env.calibEnvs calls) = 0 := by
          have := hfail 0 (by omega)
          rwa [Nat.add_zero] at this
        rw [if_neg (by simpa using hz)]
        have := ih (calls + 1) (by omega) (fun n hn => by
          have := hfail (n + 1) (by omega)
          rwa [show calls + (n + 1) = calls + 1 + n by omega] at this)
        rw [this]
        refine Prod.ext rfl (Prod.ext rfl ?_)
        simp only []
        omega
      · rw [if_neg h0]
        have : i = 0 := by omega
        subst this
        simp

/-- The first nonzero attempt (the `k`-th, counting from 0) breaks the loop:
`k + 1` attempts are made in total and the nonzero result is returned. -/
theorem calibLoop_first_success (env : SysEnv) :
    ∀ i calls k, k < i - 1 →
      (∀ n, n < k → quick_pit_calibrate (env.calibEnvs (calls + n)) = 0) →
      quick_pit_calibrate (env.calibEnvs (calls + k)) ≠ 0 →
      calibLoop env calls i =
        (i - 1 - k, quick_pit_calibrate (env.calibEnvs (calls + k)), calls + k + 1) := by
  intro i
  induction i with
  | zero => intro calls k hk; omega
  | succ i ih =>
      intro calls k hk hzero hsucc
      simp only [calibLoop]
      rw [if_pos (by omega : 0 < i)]
      cases k with
      | zero =>
          rw [Nat.add_zero] at hsucc
          rw [if_pos hsucc]
          refine Prod.ext (by simp) (Prod.ext ?_ rfl)
          simp only []
          rw [Nat.add_zero]
      | succ k =>
          have hz : quick_pit_calibrate (env.calibEnvs calls) = 0 := by
            have := hzero 0 (by omega)
            rwa [Nat.add_zero] at this
          rw [if_neg (by simpa using hz)]
          have := ih (calls + 1) k (by omega)
            (fun n hn => by
              have := hzero (n + 1) (by omega)
              rwa [show calls + (n + 1) = calls + 1 + n by omega] at this)
            (by rwa [show calls + 1 + k = calls + (k + 1) by omega])
          rw [this]
          refine Prod.ext (by simp; omega) (Prod.ext ?_ ?_)
          · simp only []
            rw [show calls + 1 + k = calls + (k + 1) by omega]
          · simp only []
            omega

/-- Cache hit: with a nonzero cached frequency, `tsc_calibrate` returns it
(times 1000) and performs nothing else. -/
theorem tsc_calibrate_cache_hit (env : SysEnv) (s : SysState) (h : s.cpu_freq ≠ 0) :
    tsc_calibrate env s = (s.cpu_freq * 1000 % U64, s) := by
  unfold tsc_calibrate
  rw [if_pos h]

/-- Cache miss: `tsc_calibrate` runs the retry loop and either falls back to
the default (loop exhausted, `i = 0`) or caches the loop's nonzero result. -/
theorem tsc_calibrate_miss (env : SysEnv) (s : SysState) (h : s.cpu_freq = 0)
    (i f c : Nat) (hc : calibLoop env s.calibCalls TIMES = (i, f, c)) :
    tsc_calibrate env s =
      if i = 0 then
        (DEFAULT_FREQ * 1000 % U64,
         { s with cpu_freq := DEFAULT_FREQ, calibCalls := c,
                  out := s.out ++ [ConsoleEvent.calibNotice] })
      else (f * 1000 % U64, { s with cpu_freq := f, calibCalls := c }) := by
  unfold tsc_calibrate
  rw [if_neg (by simp [h]), hc]

/-- Any call to `tsc_calibrate` leaves a nonzero cached frequency, and a
repeated call is a pure cache hit: it returns the identical result and leaves
the state (including the attempt counter and the console log) untouched. -/
theorem tsc_calibrate_stable (env : SysEnv) (s : SysState) :
    (tsc_calibrate env s).2.cpu_freq ≠ 0 ∧
    tsc_calibrate env ((tsc_calibrate env s).2) = tsc_calibrate env s := by
  by_cases h : s.cpu_freq ≠ 0
  · rw [tsc_calibrate_cache_hit env s h]
    exact ⟨h, tsc_calibrate_cache_hit env s h⟩
  · push_neg at h
    rcases hc : calibLoop env s.calibCalls TIMES with ⟨i, f, c⟩
    by_cases hi : i = 0
    · subst hi
      rw [tsc_calibrate_miss env s h 0 f c hc, if_pos rfl]
      have hne : DEFAULT_FREQ ≠ 0 := by decide
      exact ⟨hne, by rw [tsc_calibrate_cache_hit _ _ hne]⟩
    · have hf : f ≠ 0 := calibLoop_break env TIMES s.calibCalls i f c hc hi
      rw [tsc_calibrate_miss env s h i f c hc, if_neg hi]
      exact ⟨hf, by rw [tsc_calibrate_cache_hit _ _ hf]⟩

/-- C8 (amended: the value is computed in truncating 64-bit — mod `2 ^ 64` —
arithmetic, and it is strictly positive provided the 64-bit jitter sum
`d1 + d2` and the product `(delta + d1 + d2) * PIT_TICK_RATE` do not wrap
`2 ^ 64`; with wrap-around the function can return 0 on a success path).
When `quick_pit_calibrate` reaches its `success:` block — some iteration `i`
satisfied `d1 + d2 < delta >> 11` and the final independent MSB verify at
`0xFE - i` passed, which is exactly `qpcRun e = some (i, delta, d1, d2)` —
it returns `(delta + (d2 - d1) / 2) * PIT_TICK_RATE / (i * 256 * 1000)`
computed with truncating integer arithmetic (`quick_success_value`), the
quality gate held, `1 ≤ i ≤ MAX_QUICK_PIT_ITERATIONS`, and in the absence of
64-bit overflow the returned kHz value is strictly greater than 0. -/
theorem quick_pit_calibrate_success (e : Env) (i delta d1 d2 : Nat)
    (h : qpcRun e = some (i, delta, d1, d2)) :
    quick_pit_calibrate e = quick_success_value i delta d1 d2 ∧
    (d1 + d2) % U64 < delta >>> 11 ∧
    1 ≤ i ∧ i ≤ MAX_QUICK_PIT_ITERATIONS ∧
    (d1 + d2 < U64 → (delta + (d1 + d2)) * PIT_TICK_RATE < U64 →
      0 < quick_pit_calibrate e) := by
  obtain ⟨hi1, hi2, hdelta, hd1, hd2, hgate⟩ := qpcRun_some e i delta d1 d2 h
  have hq : quick_pit_calibrate e = quick_success_value i delta d1 d2 := by
    unfold quick_pit_calibrate
    rw [h]
  refine ⟨hq, hgate, hi1, hi2, fun hnw hmul => ?_⟩
  rw [hq]
  have hg2 : d1 + d2 < delta >>> 11 := by
    rwa [Nat.mod_eq_of_lt hnw] at hgate
  exact quick_success_value_pos i delta d1 d2 hi1 hi2 hdelta hg2 hmul

/-- C4. If every calibration attempt returns 0, `tsc_calibrate` caches
`DEFAULT_FREQ = 2,500,000` and returns exactly `2,500,000 * 1000 =
2,500,000,000` cycles per second, appending the diagnostic notice to the
console log exactly once; every repeated call returns the identical result
and leaves the state — in particular the log — unchanged, so the notice is
never emitted again. -/
theorem tsc_calibrate_all_fail_default (env : SysEnv) (s : SysState)
    (h0 : s.cpu_freq = 0)
    (hfail : ∀ n, quick_pit_calibrate (env.calibEnvs n) = 0) :
    tsc_calibrate env s =
      (2500000000,
       { s with cpu_freq := DEFAULT_FREQ, calibCalls := s.calibCalls + 99,
                out := s.out ++ [ConsoleEvent.calibNotice] }) ∧
    tsc_calibrate env ((tsc_calibrate env s).2) = tsc_calibrate env s := by
  have hc : calibLoop env s.calibCalls TIMES = (0, 0, s.calibCalls + 99) :=
    calibLoop_all_fail env TIMES s.calibCalls (by norm_num [TIMES])
      (fun n _ => hfail _)
  refine ⟨?_, (tsc_calibrate_stable env s).2⟩
  rw [tsc_calibrate_miss env s h0 0 0 (s.calibCalls + 99) hc, if_pos rfl]
  norm_num [DEFAULT_FREQ, U64]

/-- C5 (amended: the retry ceiling is 99 attempts, not 100 — the loop
`int i = TIMES; while (--i > 0)` with `TIMES = 100` runs its body at
`i = 99, …, 1`). On a call with an empty cache, `tsc_calibrate` invokes
`quick_pit_calibrate` up to exactly 99 times before falling back to the
default, and the first nonzero result (at attempt `k`, counting from 0) ends
the retries after `k + 1` attempts, is cached, and is returned multiplied by
1000 (as cycles per second, in 64-bit arithmetic). -/
theorem tsc_calibrate_retry_count (env : SysEnv) (s : SysState)
    (h0 : s.cpu_freq = 0) :
    ((∀ n, n < 99 → quick_pit_calibrate (env.calibEnvs (s.calibCalls + n)) = 0) →
       tsc_calibrate env s =
         (2500000000,
          { s with cpu_freq := DEFAULT_FREQ, calibCalls := s.calibCalls + 99,
                   out := s.out ++ [ConsoleEvent.calibNotice] })) ∧
    (∀ k, k < 99 →
       (∀ n, n < k → quick_pit_calibrate (env.calibEnvs (s.calibCalls + n)) = 0) →
       quick_pit_calibrate (env.calibEnvs (s.calibCalls + k)) ≠ 0 →
       tsc_calibrate env s =
         (quick_pit_calibrate (env.calibEnvs (s.calibCalls + k)) * 1000 % U64,
          { s with cpu_freq := quick_pit_calibrate (env.calibEnvs (s.calibCalls + k)),
                   calibCalls := s.calibCalls + k + 1 })) := by
  constructor
  · intro hfail
    have hc : calibLoop env s.calibCalls TIMES = (0, 0, s.calibCalls + 99) :=
      calibLoop_all_fail env TIMES s.calibCalls (by norm_num [TIMES])
        (fun n hn => hfail n (by simpa [TIMES] using hn))
    rw [tsc_calibrate_miss env s h0 0 0 (s.calibCalls + 99) hc, if_pos rfl]
    norm_num [DEFAULT_FREQ, U64]
  · intro k hk hzero hsucc
    have hc : calibLoop env s.calibCalls TIMES =
        (TIMES - 1 - k, quick_pit_calibrate (env.calibEnvs (s.calibCalls + k)),
         s.calibCalls + k + 1) :=
      calibLoop_first_success env TIMES s.calibCalls k (by simp [TIMES]; omega)
        hzero hsucc
    rw [tsc_calibrate_miss env s h0 _ _ _ hc,
        if_neg (by simp [TIMES]; omega)]

/-- `tsc_calibrate` only touches the calibration cache, the attempt counter
and the console log: the session fields pass through unchanged. -/
theorem tsc_calibrate_session_fields (env : SysEnv) (s : SysState) :
    (tsc_calibrate env s).2.timer_started = s.timer_started ∧
    (tsc_calibrate env s).2.timer_id = s.timer_id ∧
    (tsc_calibrate env s).2.timer = s.timer ∧
    (tsc_calibrate env s).2.div_by_zero = s.div_by_zero := by
  by_cases h : s.cpu_freq ≠ 0
  · rw [tsc_calibrate_cache_hit env s h]
    exact ⟨rfl, rfl, rfl, rfl⟩
  · push_neg at h
    rcases hc : calibLoop env s.calibCalls TIMES with ⟨i, f, c⟩
    rw [tsc_calibrate_miss env s h i f c hc]
    by_cases hi : i = 0
    · rw [if_pos hi]
      exact ⟨rfl, rfl, rfl, rfl⟩
    · rw [if_neg hi]
      exact ⟨rfl, rfl, rfl, rfl⟩

/-- Frequency dispatch never touches the session fields. -/
theorem get_cpu_freq_by_id_session_fields (env : SysEnv) (s : SysState) (t : Timer_id) :
    (get_cpu_freq_by_id env s t).2.timer_started = s.timer_started ∧
    (get_cpu_freq_by_id env s t).2.timer_id = s.timer_id ∧
    (get_cpu_freq_by_id env s t).2.timer = s.timer ∧
    (get_cpu_freq_by_id env s t).2.div_by_zero = s.div_by_zero := by
  cases t with
  | ID_PIT => exact tsc_calibrate_session_fields env s
  | ID_NONE => exact ⟨rfl, rfl, rfl, rfl⟩
  | ID_HPET0 => exact ⟨rfl, rfl, rfl, rfl⟩
  | ID_HPET1 => exact ⟨rfl, rfl, rfl, rfl⟩
  | ID_PM => exact ⟨rfl, rfl, rfl, rfl⟩

/-- `timer_cpu_frequency` never changes the session fields. -/
theorem timer_cpu_frequency_session_fields (env : SysEnv) (name : String) (s : SysState) :
    (timer_cpu_frequency env name s).timer_started = s.timer_started ∧
    (timer_cpu_frequency env name s).timer_id = s.timer_id := by
  unfold timer_cpu_frequency
  by_cases hn : get_timer_id name = Timer_id.ID_NONE
  · rw [if_pos hn]
    exact ⟨rfl, rfl⟩
  · rw [if_neg hn]
    rcases hq : get_cpu_freq_by_id env s (get_timer_id name) with ⟨fr, s1⟩
    obtain ⟨h1, h2, h3, h4⟩ := get_cpu_freq_by_id_session_fields env s (get_timer_id name)
    rw [hq] at h1 h2
    exact ⟨h1, h2⟩

/-- Every entry point preserves the invariant "an idle session holds no
source id". -/
theorem step_preserves_idle_inv (env : SysEnv) (s : SysState) (c : Cmd)
    (h : s.timer_started = false → s.timer_id = Timer_id.ID_NONE) :
    (step env s c).timer_started = false →
      (step env s c).timer_id = Timer_id.ID_NONE := by
  cases c with
  | start name =>
      show (timer_start env name s).timer_started = false →
        (timer_start env name s).timer_id = Timer_id.ID_NONE
      unfold timer_start
      by_cases hn : get_timer_id name = Timer_id.ID_NONE
      · rw [if_pos (by simpa using hn)]
        intro _
        simpa using hn
      · rw [if_neg (by simpa using hn)]
        intro hfalse
        simp at hfalse
  | stop =>
      show (timer_stop env s).timer_started = false →
        (timer_stop env s).timer_id = Timer_id.ID_NONE
      unfold timer_stop
      by_cases hb : s.timer_started = true
      · rw [if_pos hb]
        rcases hq : get_cpu_freq_by_id env { s with tscIdx := s.tscIdx + 1 } s.timer_id
          with ⟨fr, s1⟩
        intro _
        rfl
      · rw [if_neg hb]
        intro _
        exact h (by simpa using hb)
  | cpuFrequency name =>
      show (timer_cpu_frequency env name s).timer_started = false →
        (timer_cpu_frequency env name s).timer_id = Timer_id.ID_NONE
      obtain ⟨h1, h2⟩ := timer_cpu_frequency_session_fields env name s
      rw [h1, h2]
      exact h

/-!
## Claim theorems on the session state machine
-/

/-- C3. `tsc_calibrate` (`get_cpu_frequency`) is idempotent: whatever the
first call produced (calibrated or fallback), the repeated call returns the
identical value and the identical state — in particular `calibCalls`
(the number of `quick_pit_calibrate` invocations) and the console log do not
change, so the second call performs no calibration attempt. -/
theorem tsc_calibrate_idempotent (env : SysEnv) (s : SysState) :
    tsc_calibrate env ((tsc_calibrate env s).2) = tsc_calibrate env s :=
  (tsc_calibrate_stable env s).2

/-- C6. `timer_cpu_frequency("pm")` only reports the unsupported-timer
outcome: the state is unchanged apart from that single console event, so no
frequency value (neither a default nor a cached one) is ever reported and no
calibration is attempted. -/
theorem timer_cpu_frequency_pm_unsupported (env : SysEnv) (s : SysState) :
    timer_cpu_frequency env "pm" s =
      { s with out := s.out ++ [ConsoleEvent.unsupportedFreq "pm"] } := rfl

/-- C7. `timer_stop` in the Idle state reports the distinguishable
timer-error condition and does nothing else: the whole state — the session
fields and the cached `cpu_freq` alike — is unchanged apart from that single
console event. -/
theorem timer_stop_idle_reports_error (env : SysEnv) (s : SysState)
    (h : s.timer_started = false) :
    timer_stop env s = { s with out := s.out ++ [ConsoleEvent.timerError] } := by
  unfold timer_stop
  rw [if_neg (by simp [h])]

/-- Witness for C7 at the initial state. -/
theorem timer_stop_idle_reports_error_witness :
    timer_stop allFailSys initState =
      { initState with out := initState.out ++ [ConsoleEvent.timerError] } :=
  timer_stop_idle_reports_error allFailSys initState rfl

/-- C10. Invariant of every reachable state: an idle session records no
source id. Since `run` starts from the initial state (`timer_started =
false`, `timer_id = ID_NONE`) and every entry point preserves the property,
no sequence of `timer_start` / `timer_stop` / `timer_cpu_frequency` calls
leaves a stale source id in an idle session; in particular `timer_stop`
clears `timer_id` whenever it transitions to Idle. -/
theorem session_idle_implies_no_source_id (env : SysEnv) (cmds : List Cmd) :
    (run env cmds).timer_started = false →
      (run env cmds).timer_id = Timer_id.ID_NONE := by
  suffices h : ∀ (l : List Cmd) (s : SysState),
      (s.timer_started = false → s.timer_id = Timer_id.ID_NONE) →
      ((l.foldl (step env) s).timer_started = false →
        (l.foldl (step env) s).timer_id = Timer_id.ID_NONE) from
    h cmds initState (fun _ => rfl)
  intro l
  induction l with
  | nil => intro s hs; exact hs
  | cons c l ih =>
      intro s hs
      exact ih (step env s c) (step_preserves_idle_inv env s c hs)

/-- Witness for C10: a start/stop round trip ends Idle with no source id. -/
theorem session_idle_implies_no_source_id_witness :
    (run allFailSys [Cmd.start "pit", Cmd.stop]).timer_id = Timer_id.ID_NONE :=
  session_idle_implies_no_source_id allFailSys [Cmd.start "pit", Cmd.stop] rfl

/-- C1 (code bug). `timer_start` overwrites the global `timer_id` before
validating the name, so `timer_start("pit"); timer_start("bogus");
timer_stop()` reaches `timer_stop` in the Running state
(`timer_started = true`) with `timer_id = ID_NONE`; there
`get_cpu_freq_by_id` returns 0 and the division
`cpu_ticks_since / get_cpu_freq_by_id(timer_id)` divides by zero. -/
theorem timer_stop_divides_by_zero_after_bogus_restart :
    (run allFailSys [Cmd.start "pit", Cmd.start "bogus"]).timer_started = true ∧
    (run allFailSys [Cmd.start "pit", Cmd.start "bogus"]).timer_id =
      Timer_id.ID_NONE ∧
    (get_cpu_freq_by_id allFailSys
        (run allFailSys [Cmd.start "pit", Cmd.start "bogus"])
        (run allFailSys [Cmd.start "pit", Cmd.start "bogus"]).timer_id).1 = 0 ∧
    (run allFailSys [Cmd.start "pit", Cmd.start "bogus", Cmd.stop]).div_by_zero =
      true :=
  ⟨rfl, rfl, rfl, rfl⟩

/-- C2 (code bug). `timer_start` with an unrecognised name does report the
error, and leaves `timer_started` and the start snapshot alone — but it is
not a no-op on the whole session state: called while a session started with
`"pit"` is running, it destroys the recorded source id
(`timer_id : ID_PIT ↦ ID_NONE`) while leaving the session marked running. -/
theorem timer_start_bogus_clobbers_running_session :
    (run allFailSys [Cmd.start "pit"]).timer_started = true ∧
    (run allFailSys [Cmd.start "pit"]).timer_id = Timer_id.ID_PIT ∧
    timer_start allFailSys "bogus" (run allFailSys [Cmd.start "pit"]) =
      { run allFailSys [Cmd.start "pit"] with
          timer_id := Timer_id.ID_NONE,
          out := (run allFailSys [Cmd.start "pit"]).out ++
            [ConsoleEvent.unsupportedStart "bogus"] } ∧
    Timer_id.ID_PIT ≠ Timer_id.ID_NONE :=
  ⟨rfl, rfl, rfl, by decide⟩

/-- C9 counterexample: on a trace where the expected MSB persists for exactly
6 consecutive confirmations (and the 7th poll mismatches), `pit_expect_msb`
nevertheless returns success — 6 is not "more than 6". -/
theorem pit_expect_msb_accepts_six_confirms :
    (pit_expect_msb envSixConfirms 0xFF (0, 0)).1 = true ∧
    confirmLoop envSixConfirms 0xFF 50000 0 0 = 6 ∧ ¬ (6 < 6) :=
  ⟨rfl, rfl, by decide⟩

/-- C8 counterexample: a trace reaching the `success:` block (quality gate
and final verify both passed, with `i = 1`, `d1 = d2 = 0`, `delta = 2 ^ 63`)
on which the 64-bit product `delta * PIT_TICK_RATE` wraps to 0, so the
"guaranteed > 0" return value is 0. -/
theorem quick_pit_calibrate_success_returns_zero :
    qpcRun envOverflow = some (1, 2 ^ 63, 0, 0) ∧
    quick_pit_calibrate envOverflow = 0 :=
  ⟨rfl, rfl⟩

/-- Witness for C8 on a genuine successful calibration trace. -/
theorem quick_pit_calibrate_success_witness :
    quick_pit_calibrate envCalibOk = quick_success_value 1 4096 0 0 ∧
    0 < quick_pit_calibrate envCalibOk := by
  obtain ⟨h1, h2, h3, h4, h5⟩ :=
    quick_pit_calibrate_success envCalibOk 1 4096 0 0 rfl
  exact ⟨h1, h5 (by decide) (by decide)⟩

/-- Witness for C4: with every attempt failing, the default is cached and
returned and the notice is emitted exactly once. -/
theorem tsc_calibrate_all_fail_default_witness :
    tsc_calibrate allFailSys initState =
      (2500000000,
       { initState with cpu_freq := DEFAULT_FREQ,
                        calibCalls := initState.calibCalls + 99,
                        out := initState.out ++ [ConsoleEvent.calibNotice] }) ∧
    tsc_calibrate allFailSys ((tsc_calibrate allFailSys initState).2) =
      tsc_calibrate allFailSys initState :=
  tsc_calibrate_all_fail_default allFailSys initState rfl (fun _ => rfl)

/-- C5 counterexample: on the all-fail environment the fallback happens after
exactly 99 calibration attempts (the attempt counter ends at 99 from 0), not
100. -/
theorem tsc_calibrate_attempts_ninety_nine :
    (tsc_calibrate allFailSys initState).2.calibCalls = 99 ∧
    (tsc_calibrate allFailSys initState).2.cpu_freq = DEFAULT_FREQ ∧
    (99 : Nat) ≠ 100 :=
  ⟨rfl, rfl, by decide⟩

/-- Witness for C5 on an environment whose first attempt succeeds: one
attempt is made, its result is cached and returned times 1000. -/
theorem tsc_calibrate_retry_count_witness :
    tsc_calibrate okSys initState =
      (quick_pit_calibrate (okSys.calibEnvs (initState.calibCalls + 0)) * 1000 % U64,
       { initState with
           cpu_freq := quick_pit_calibrate (okSys.calibEnvs (initState.calibCalls + 0)),
           calibCalls := initState.calibCalls + 0 + 1 }) :=
  (tsc_calibrate_retry_count okSys initState rfl).2 0 (by decide)
    (fun n hn => absurd hn (Nat.not_lt_zero n)) (by decide)
